import Mathlib

/-!
Shallow embedding of the content lifecycle controller of `src/app.py`
(a Streamlit app backed by Firestore and a text-generation API).

Conventions used throughout:
* The remote Firestore collection is modelled as a `List ContentItem`
  already in the order the app's query serves it (`order_by createdAt
  descending`, lines 173-176 of `src/app.py`); sortedness by `createdAt`
  is carried as an explicit hypothesis where a claim needs it.
* Streamlit's `st.session_state` entries touched by the core are modelled
  as explicit state records; `st.rerun()` raises and therefore ends the
  script run, which the embedding reflects by returning right there.
* Network effects (Firestore round trips, the generation HTTP call) are
  modelled by an explicit outcome parameter saying what the collaborator
  did; the embedded function reproduces what the Python code does with
  that outcome.
-/

namespace Kelly

/-- One saved generation result, as stored in the per-user collection
(`content_to_save` at lines 338-343 plus the server-side `createdAt` and
the document `id` attached at line 183 of `src/app.py`). -/
structure ContentItem where
  id : String
  toolId : String
  toolName : String
  prompt : String
  text : String
  createdAt : Nat
deriving DecidableEq

/-- Line 74 of `src/app.py`. -/
def ITEMS_PER_PAGE : Nat := 5

/-- Lines 89-99: `get_user_id` always resolves to the fixed demo identity
`"default_user"` (stable pseudo-identity, never empty). -/
def get_user_id : String := "default_user"

/-- Firestore `query.start_after(doc_snapshot)`: resume strictly after the
position of the given document in the ordered collection.  The documents
of a collection are pairwise distinct (unique ids), so dropping through
the first occurrence is the document's position. -/
def start_after (d : ContentItem) : List ContentItem → List ContentItem
  | [] => []
  | x :: xs => if x = d then xs else start_after d xs

/-- Lines 168-194, `fetch_content(limit_num, last_doc_snapshot)`.
`store` is the remote collection in `createdAt`-descending order and
`storeFail` says whether `query.stream()` raised (the `except` branch at
lines 192-194).  Returns `(content, new_last_doc, has_more)` exactly as
the Python triple: the page, the last returned snapshot (or `none` for an
empty page), and `len(docs) == limit_num`. -/
def fetch_content (store : List ContentItem) (storeFail : Bool)
    (limit_num : Nat) (last_doc_snapshot : Option ContentItem) :
    List ContentItem × Option ContentItem × Bool :=
  if get_user_id = "" then ([], none, false)
  else if storeFail then ([], none, false)
  else
    let source := match last_doc_snapshot with
      | none => store
      | some d => start_after d store
    let docs := source.take limit_num
    (docs, docs.getLast?, docs.length == limit_num)

/-- The four `st.session_state` keys that hold the "Meus Conteúdos" list
cache (lines 353-357 of `src/app.py`). -/
structure MyContentState where
  generated_content_list : List ContentItem
  last_doc_snapshot : Option ContentItem
  has_more_content : Bool
  is_loading_content : Bool
deriving DecidableEq

/-- Lines 352-366 of `render_my_content_page`: one read of the saved-content
list, up to and including the first-page load when one is triggered.
`sess = none` models the cache key `'generated_content_list'` being absent
from `st.session_state` (lines 353-357 then re-initialise all four keys).
Returns the resulting state and the number of store fetches this read
performed. -/
def render_my_content_read (store : List ContentItem) (storeFail : Bool)
    (sess : Option MyContentState) : MyContentState × Nat :=
  let s0 : MyContentState := match sess with
    | none => ⟨[], none, true, true⟩
    | some s => s
  if s0.is_loading_content && s0.generated_content_list.isEmpty then
    let r := fetch_content store storeFail ITEMS_PER_PAGE none
    (⟨r.1, r.2.1, r.2.2, false⟩, 1)
  else
    (s0, 0)

/-- The first-page load (lines 359-366) starting from an absent cache key. -/
def loadFirstPage (store : List ContentItem) : MyContentState :=
  (render_my_content_read store false none).1

/-- Lines 461-473: the "Carregar Mais Conteúdos" handler.  The button is
rendered only when `has_more_content` is true and no load is in flight
(line 461), hence the guard.  Line 470 keeps the previous cursor when the
new page is empty. -/
def loadMore (store : List ContentItem) (s : MyContentState) : MyContentState :=
  if s.has_more_content && !s.is_loading_content then
    let r := fetch_content store false ITEMS_PER_PAGE s.last_doc_snapshot
    ⟨s.generated_content_list ++ r.1,
     (match r.2.1 with
      | some d => some d
      | none => s.last_doc_snapshot),
     r.2.2,
     false⟩
  else s

/-- `N` successive presses of the load-more button. -/
def loadMoreN (store : List ContentItem) : Nat → MyContentState → MyContentState
  | 0, s => s
  | n + 1, s => loadMore store (loadMoreN store n s)

/-- Line 369: the "Nenhum conteúdo salvo ainda" message is shown exactly
when the cached list is empty and no load is in flight. -/
def shows_empty_message (s : MyContentState) : Bool :=
  s.generated_content_list.isEmpty && !s.is_loading_content

/-- Line 461: whether the load-more button is rendered at all. -/
def shows_load_more (s : MyContentState) : Bool :=
  s.has_more_content && !s.is_loading_content

/-! ## Content mutation operations (lines 149-230 of `src/app.py`) -/

/-- The toast levels of `add_toast` (lines 77-85). -/
inductive ToastType where
  | success | error | warning | info
deriving DecidableEq

/-- One `add_toast(message, type)` call. -/
structure Toast where
  message : String
  toastType : ToastType
deriving DecidableEq

/-- What a mutation helper leaves behind: the toast it showed, the cache
key `'generated_content_list'` afterwards (`none` = deleted/absent), and
whether the success path was reached (for `update_content_in_firestore`
this is its Python return value; for save/delete it marks reaching
`st.rerun()`). -/
structure OpResult where
  toast : Toast
  cache : Option MyContentState
  ok : Bool
deriving DecidableEq

/-- What the Firestore client did for an insert or delete round trip:
either it succeeded, or it raised an exception whose text is `e`
(transport/auth failure, `StoreUnavailable` in the spec's vocabulary). -/
inductive StoreOutcome where
  | ok
  | failure (e : String)
deriving DecidableEq

/-- What `doc_ref.update` did: success, a google `NotFound` exception
(the document id is absent), or any other transport exception.  `e` is
the Python `str(exception)` text. -/
inductive UpdateOutcome where
  | ok
  | notFound (e : String)
  | unavailable (e : String)
deriving DecidableEq

/-- Lines 149-166, `save_content_to_firestore`.  On success: success toast,
delete the cache key, rerun.  On exception: error toast, cache untouched,
no rerun. -/
def save_content_to_firestore (outcome : StoreOutcome)
    (cache : Option MyContentState) : OpResult :=
  if get_user_id = "" then
    ⟨⟨"Usuário não identificado. Não é possível salvar.", .error⟩, cache, false⟩
  else
    match outcome with
    | .ok => ⟨⟨"Conteúdo salvo com sucesso!", .success⟩, none, true⟩
    | .failure e => ⟨⟨"Falha ao salvar conteúdo: " ++ e, .error⟩, cache, false⟩

/-- Lines 197-212, `delete_content_from_firestore`. -/
def delete_content_from_firestore (outcome : StoreOutcome)
    (cache : Option MyContentState) : OpResult :=
  if get_user_id = "" then
    ⟨⟨"Usuário não identificado. Não é possível excluir.", .error⟩, cache, false⟩
  else
    match outcome with
    | .ok => ⟨⟨"Conteúdo excluído com sucesso!", .success⟩, none, true⟩
    | .failure e => ⟨⟨"Falha ao excluir conteúdo: " ++ e, .error⟩, cache, false⟩

/-- Lines 214-230, `update_content_in_firestore`.  A single
`except Exception` clause (lines 227-230) handles every raised exception
the same way, whether it is a google `NotFound` or a transport failure:
error toast `"Falha ao atualizar conteúdo: {e}"`, cache untouched,
`return False`. -/
def update_content_in_firestore (outcome : UpdateOutcome)
    (cache : Option MyContentState) : OpResult :=
  if get_user_id = "" then
    ⟨⟨"Usuário não identificado. Não é possível atualizar.", .error⟩, cache, false⟩
  else
    match outcome with
    | .ok => ⟨⟨"Conteúdo atualizado com sucesso!", .success⟩, none, true⟩
    | .notFound e => ⟨⟨"Falha ao atualizar conteúdo: " ++ e, .error⟩, cache, false⟩
    | .unavailable e => ⟨⟨"Falha ao atualizar conteúdo: " ++ e, .error⟩, cache, false⟩

/-! ## Generation request lifecycle (lines 253-318 of `src/app.py`) -/

/-- The fields of a tool config the core logic reads (lines 67-72;
UI-only fields such as description, placeholder and icon are omitted).
`sampleOutput` is read through `tool.get('sampleOutput', ...)`, hence
an `Option`. -/
structure ToolConfig where
  id : String
  name : String
  sampleOutput : Option String
deriving DecidableEq

/-- Lines 67-72, `tool_configs` (keyed lookup, `none` for unknown keys). -/
def tool_configs (key : String) : Option ToolConfig :=
  if key = "article" then
    some ⟨"article", "Gerador de Artigos", some "Artigo gerado sobre o tema X..."⟩
  else if key = "headline" then
    some ⟨"headline", "Gerador de Headlines", some "1. Headline A\n2. Headline B..."⟩
  else if key = "social" then
    some ⟨"social", "Posts para Redes Sociais", some "Post para redes sociais sobre Y..."⟩
  else if key = "summary" then
    some ⟨"summary", "Resumidor de Conteúdos", some "Resumo do texto Z..."⟩
  else none

/-- One element of a candidate's `content.parts`; `part.get("text", "")`
makes the text field optional (line 298). -/
structure Part where
  text : Option String

/-- One element of the response's `candidates` list.  `parts` is the value
of `candidate.get("content", {}).get("parts")`: `none` when either key is
missing, `some []` when present but empty (both are falsy at line 297).
`safetyRatings` holds the Python `str()` rendering of the
`"safetyRatings"` value, `none` when the key is missing (the code then
defaults to `[]`, printed as `"[]"`). -/
structure Candidate where
  parts : Option (List Part)
  finishReason : Option String
  safetyRatings : Option String

/-- The parsed JSON body of a 200 response: `candidates` is `none` when
the key is absent, `some l` when present (possibly empty — in Python an
empty list is falsy but `dict.get` still returns it, not the default). -/
structure GenResponse where
  candidates : Option (List Candidate)

/-- What the `requests.post` call produced: a JSON body, or a
`requests.exceptions.RequestException` (connection fault or
`raise_for_status`) whose text is `e`. -/
inductive ApiResult where
  | response (r : GenResponse)
  | transportError (e : String)

/-- Python `str.strip()` restricted to the ASCII whitespace the payloads
here can contain. -/
def py_space (c : Char) : Bool :=
  c = ' ' || c = '\t' || c = '\n' || c = '\r' || c = '\x0b' || c = '\x0c'

/-- Python `prompt.strip()` (line 277). -/
def py_strip (s : String) : String :=
  String.mk (((s.data.dropWhile py_space).reverse.dropWhile py_space).reverse)

/-- Lines 292-317: the `try/except` around the generation API call and the
parsing of its response.  Returns
`(generated_result, error_message_set, toast)` where `error_message_set`
is `some m` when the run assigned `st.session_state.error_message = m`
(only the two `except` branches do) and `none` when it left it alone.

The success test at line 297 is
`result.get("candidates") and result["candidates"][0].get("content", {}).get("parts")`
(both truthy, i.e. present and non-empty).  Otherwise line 302 evaluates
`result.get("candidates", [{}])[0]`: when the key is missing this is the
default `[{}]` indexed to `{}`; when the key holds the empty list `[]`,
`dict.get` returns it and `[][0]` raises `IndexError("list index out of
range")`, which the generic `except Exception` at line 312 catches. -/
def handle_api (sample : Option String) (api : ApiResult) :
    String × Option String × Toast :=
  match api with
  | .transportError e =>
      (sample.getD "Ocorreu um erro ao gerar o conteúdo.",
       some ("Erro de rede/API: " ++ e),
       ⟨"Erro na geração (rede): " ++ e, .error⟩)
  | .response r =>
    match r.candidates with
    | some (c :: _) =>
      match c.parts with
      | some (p :: ps) =>
          (String.join (((p :: ps).map fun part => part.text.getD "")),
           none,
           ⟨"Conteúdo gerado com sucesso!", .success⟩)
      | _ =>
          let detailed := "Resposta da API vazia ou malformada. Motivo: "
            ++ c.finishReason.getD "N/A" ++ ". Classificações: "
            ++ c.safetyRatings.getD "[]"
          ("Não foi possível gerar o conteúdo. " ++ detailed,
           none,
           ⟨"Falha ao gerar: " ++ detailed, .error⟩)
    | some [] =>
        (sample.getD "Ocorreu um erro ao gerar o conteúdo.",
         some "Erro ao gerar conteúdo: list index out of range",
         ⟨"Erro na geração: list index out of range", .error⟩)
    | none =>
        let detailed :=
          "Resposta da API vazia ou malformada. Motivo: N/A. Classificações: []"
        ("Não foi possível gerar o conteúdo. " ++ detailed,
         none,
         ⟨"Falha ao gerar: " ++ detailed, .error⟩)

/-- Whether a response reaches the "Resposta da API vazia ou malformada"
diagnostic at lines 302-307 (the spec's `GenerationEmptyResult`): the
line-297 test failed and line 302 did not raise. -/
def reaches_empty_diagnostic (r : GenResponse) : Bool :=
  match r.candidates with
  | none => true
  | some [] => false
  | some (c :: _) =>
    match c.parts with
    | some (_ :: _) => false
    | _ => true

/-- The three `st.session_state` keys that carry a tool page's generation
lifecycle (Idle = `is_loading` false and no pending submit; Pending =
`is_loading` true; resolution fills `generated_result` or
`error_message`). -/
structure ToolState where
  error_message : String
  generated_result : String
  is_loading : Bool
deriving DecidableEq

/-- One Streamlit script run of `render_tool_page` (lines 271-318),
restricted to the lifecycle logic.  `submitted = some p` means the form
was submitted this run with prompt text `p`; `api` is what the HTTP call
would produce if the generation block runs.  Returns the new state, the
error text displayed this run (lines 271-273 show and then clear
`error_message`), and the number of generation API calls the run issued.
Each `st.rerun()` ends the run, so a run that processes a submit never
reaches the generation block (lines 279 and 284 both rerun). -/
def run_tool_page (sample : Option String) (s : ToolState)
    (submitted : Option String) (api : ApiResult) :
    ToolState × Option String × Nat :=
  let displayed := if s.error_message = "" then none else some s.error_message
  let s1 : ToolState := { s with error_message := "" }
  match submitted with
  | some prompt =>
      if py_strip prompt = "" then
        ({ s1 with error_message := "Por favor, insira um prompt." }, displayed, 0)
      else
        ({ error_message := "", generated_result := "", is_loading := true },
         displayed, 0)
  | none =>
      if s1.is_loading then
        let r := handle_api sample api
        ({ error_message := (r.2.1).getD s1.error_message,
           generated_result := r.1,
           is_loading := false }, displayed, 1)
      else
        (s1, displayed, 0)

/-! ## Pagination lemmas -/

theorem start_after_append (l1 l2 : List ContentItem) (d : ContentItem)
    (hd : d ∉ l1) : start_after d (l1 ++ d :: l2) = l2 := by
  induction l1 with
  | nil => simp [start_after]
  | cons x xs ih =>
    have hxd : x ≠ d := fun h => hd (h ▸ List.mem_cons_self x xs)
    have hx : d ∉ xs := fun h => hd (List.mem_cons_of_mem _ h)
    simp [start_after, hxd, ih hx]

/-- The cursor returned with the page `store.take n` resumes the scan at
`store.drop n`: `start_after` on the last element of a non-empty taken
page drops exactly the first `n` documents (pairwise-distinct documents,
so the first occurrence is the cursor position). -/
theorem cursor_resume (store : List ContentItem) (hnd : store.Nodup)
    (n : Nat) (hn : 0 < n) (hle : n ≤ store.length) :
    ∃ d, (store.take n).getLast? = some d ∧
      start_after d store = store.drop n := by
  obtain ⟨m, rfl⟩ : ∃ m, n = m + 1 := ⟨n - 1, by omega⟩
  have hm : m < store.length := by omega
  have hdrop : store.drop m = store.get ⟨m, hm⟩ :: store.drop (m + 1) :=
    List.drop_eq_getElem_cons hm
  have hsplit : store = store.take m ++ store.get ⟨m, hm⟩ :: store.drop (m + 1) := by
    conv_lhs => rw [← List.take_append_drop m store]
    rw [hdrop]
  have htake : store.take (m + 1) = store.take m ++ [store.get ⟨m, hm⟩] := by
    rw [List.take_add store m 1, hdrop]
    rfl
  have hglast : (store.take (m + 1)).getLast? = some (store.get ⟨m, hm⟩) := by
    rw [htake]
    exact List.getLast?_concat _
  have hnotin : store.get ⟨m, hm⟩ ∉ store.take m := by
    have h2 := hnd
    rw [hsplit, List.nodup_append] at h2
    intro hmem
    exact h2.2.2 hmem (List.mem_cons_self _ _)
  refine ⟨store.get ⟨m, hm⟩, hglast, ?_⟩
  have happ := start_after_append (store.take m) (store.drop (m + 1))
    (store.get ⟨m, hm⟩) hnotin
  rw [← hsplit] at happ
  exact happ

/-- The state invariant after the first page plus any number of load-more
presses: the cache holds exactly the first `n` documents, the cursor is
the last cached document, `has_more_content` records whether the store
had at least `n` documents, and no load is in flight. -/
def PageInv (store : List ContentItem) (n : Nat) (s : MyContentState) : Prop :=
  s.generated_content_list = store.take n ∧
  s.last_doc_snapshot = (store.take n).getLast? ∧
  s.has_more_content = decide (n ≤ store.length) ∧
  s.is_loading_content = false

theorem fetch_content_none (store : List ContentItem) (limit : Nat) :
    fetch_content store false limit none =
      (store.take limit, (store.take limit).getLast?,
       (store.take limit).length == limit) := rfl

theorem fetch_content_some (store : List ContentItem) (limit : Nat)
    (d : ContentItem) :
    fetch_content store false limit (some d) =
      ((start_after d store).take limit,
       ((start_after d store).take limit).getLast?,
       ((start_after d store).take limit).length == limit) := rfl

theorem PageInv_first (store : List ContentItem) :
    PageInv store ITEMS_PER_PAGE (loadFirstPage store) := by
  refine ⟨rfl, rfl, ?_, rfl⟩
  show ((store.take ITEMS_PER_PAGE).length == ITEMS_PER_PAGE)
      = decide (ITEMS_PER_PAGE ≤ store.length)
  rw [Bool.eq_iff_iff]
  simp only [beq_iff_eq, decide_eq_true_eq, List.length_take]
  omega

theorem PageInv_step (store : List ContentItem) (hnd : store.Nodup)
    (n : Nat) (hn : 0 < n) (s : MyContentState)
    (h : PageInv store n s) :
    PageInv store (n + ITEMS_PER_PAGE) (loadMore store s) := by
  obtain ⟨items, cur, more, loading⟩ := s
  obtain ⟨hitems, hcur, hmore, hload⟩ := h
  simp only at hitems hcur hmore hload
  subst hitems hcur hmore hload
  by_cases hle : n ≤ store.length
  · -- more data was available: the guard holds and a fetch happens
    obtain ⟨d, hd, hresume⟩ := cursor_resume store hnd n hn hle
    have hguard : (decide (n ≤ store.length) && !false) = true := by
      simp [hle]
    unfold loadMore
    simp only [hguard, if_true, hd, fetch_content_some, hresume]
    have htail : ((store.drop n).take ITEMS_PER_PAGE).length
        = min ITEMS_PER_PAGE (store.length - n) := by
      simp [List.length_take]
    have hitems' : store.take n ++ (store.drop n).take ITEMS_PER_PAGE
        = store.take (n + ITEMS_PER_PAGE) :=
      (List.take_add store n ITEMS_PER_PAGE).symm
    refine ⟨hitems', ?_, ?_, rfl⟩
    · -- the cursor after the fetch is the last cached document
      rcases hdocs : (store.drop n).take ITEMS_PER_PAGE with _ | ⟨x, xs⟩
      · -- empty new page: the cursor is kept and equals the old last item
        rw [← hitems', hdocs]
        simpa using hd.symm
      · -- non-empty new page: its last element is the new cursor
        rcases hg : (x :: xs).getLast? with _ | g
        · exact absurd (List.getLast?_eq_none_iff.mp hg) (by simp)
        · rw [← hitems', hdocs, List.getLast?_append, hg]
          rfl
    · -- has_more is the full-page test on the new page
      rw [Bool.eq_iff_iff]
      simp only [beq_iff_eq, decide_eq_true_eq, htail]
      omega
  · -- the store was exhausted: has_more is false and loadMore no-ops
    have hguard : (decide (n ≤ store.length) && !false) = false := by
      simp [hle]
    unfold loadMore
    simp only [hguard, Bool.false_eq_true, if_false]
    have h1 : store.take n = store := List.take_of_length_le (by omega)
    have h2 : store.take (n + ITEMS_PER_PAGE) = store :=
      List.take_of_length_le (by omega)
    refine ⟨by rw [h1, h2], by rw [h1, h2], ?_, rfl⟩
    rw [Bool.eq_iff_iff]
    simp only [decide_eq_true_eq]
    omega

theorem PageInv_loadMoreN (store : List ContentItem) (hnd : store.Nodup)
    (N : Nat) :
    PageInv store ((N + 1) * ITEMS_PER_PAGE)
      (loadMoreN store N (loadFirstPage store)) := by
  induction N with
  | zero => simpa using PageInv_first store
  | succ k ih =>
    have hstep := PageInv_step store hnd ((k + 1) * ITEMS_PER_PAGE)
      (by simp [ITEMS_PER_PAGE]) _ ih
    have harith : (k + 1) * ITEMS_PER_PAGE + ITEMS_PER_PAGE
        = (k + 1 + 1) * ITEMS_PER_PAGE := by ring
    rw [harith] at hstep
    exact hstep

/-- A concrete 8-document collection (distinct ids, `createdAt`
strictly descending). -/
def store8 : List ContentItem :=
  [⟨"d1", "article", "Gerador de Artigos", "p1", "t1", 8⟩,
   ⟨"d2", "article", "Gerador de Artigos", "p2", "t2", 7⟩,
   ⟨"d3", "headline", "Gerador de Headlines", "p3", "t3", 6⟩,
   ⟨"d4", "social", "Posts para Redes Sociais", "p4", "t4", 5⟩,
   ⟨"d5", "summary", "Resumidor de Conteúdos", "p5", "t5", 4⟩,
   ⟨"d6", "article", "Gerador de Artigos", "p6", "t6", 3⟩,
   ⟨"d7", "headline", "Gerador de Headlines", "p7", "t7", 2⟩,
   ⟨"d8", "social", "Posts para Redes Sociais", "p8", "t8", 1⟩]

/-! ## Claims -/

/-- C1: for every ground-truth collection (served in `createdAt`-descending
order, with the spec's unique-id invariant), `loadFirstPage()` followed by
`N` `loadMore()` presses caches exactly the first `(1 + N) * ITEMS_PER_PAGE`
items of the collection, in order (or all of them when the collection is
exhausted — `List.take` caps at the length). -/
theorem C1_pagination (store : List ContentItem) (N : Nat)
    (hids : (store.map ContentItem.id).Nodup)
    (_hsorted : store.Pairwise fun a b => b.createdAt ≤ a.createdAt) :
    (loadMoreN store N (loadFirstPage store)).generated_content_list
      = store.take ((1 + N) * ITEMS_PER_PAGE) := by
  have h := (PageInv_loadMoreN store (hids.of_map) N).1
  have harith : (N + 1) * ITEMS_PER_PAGE = (1 + N) * ITEMS_PER_PAGE := by ring
  rw [harith] at h
  exact h

theorem C1_pagination_witness :
    ((store8.map ContentItem.id).Nodup
      ∧ store8.Pairwise fun a b => b.createdAt ≤ a.createdAt)
    ∧ (loadMoreN store8 1 (loadFirstPage store8)).generated_content_list
        = store8.take ((1 + 1) * ITEMS_PER_PAGE) :=
  ⟨⟨by decide, by decide⟩, C1_pagination store8 1 (by decide) (by decide)⟩

/-- C2: a successful `save_content_to_firestore`,
`update_content_in_firestore` or `delete_content_from_firestore` deletes
the cache key `'generated_content_list'` whatever it held, so the next
read of the list performs exactly one fetch and displays the fresh first
page of the (post-mutation) store rather than any stale cached items. -/
theorem C2_invalidate (cache : Option MyContentState)
    (store2 : List ContentItem) :
    (save_content_to_firestore .ok cache).cache = none
    ∧ (update_content_in_firestore .ok cache).cache = none
    ∧ (delete_content_from_firestore .ok cache).cache = none
    ∧ (render_my_content_read store2 false none).2 = 1
    ∧ (render_my_content_read store2 false none).1.generated_content_list
        = store2.take ITEMS_PER_PAGE :=
  ⟨rfl, rfl, rfl, rfl, rfl⟩

/-- C5: `has_more` is the full-page test `len(docs) == limit_num` for every
successful fetch at any limit, and for every fetch (failures included) at
the page size the app uses; and the spec's 8-item scenario runs as stated:
the first page of 5 reports `has_more = true`, the second fetch returns
the remaining 3 items and reports `has_more = false`, and the cache then
holds all 8 items in the original descending order. -/
theorem C5_hasMore :
    (∀ (store : List ContentItem) (limit : Nat) (cur : Option ContentItem),
      (fetch_content store false limit cur).2.2
        = ((fetch_content store false limit cur).1.length == limit))
    ∧ (∀ (store : List ContentItem) (fail : Bool) (cur : Option ContentItem),
      (fetch_content store fail ITEMS_PER_PAGE cur).2.2
        = ((fetch_content store fail ITEMS_PER_PAGE cur).1.length
            == ITEMS_PER_PAGE))
    ∧ ((loadFirstPage store8).generated_content_list.length = 5
        ∧ (loadFirstPage store8).has_more_content = true)
    ∧ ((fetch_content store8 false ITEMS_PER_PAGE
          (loadFirstPage store8).last_doc_snapshot).1.length = 3)
    ∧ ((loadMoreN store8 1 (loadFirstPage store8)).generated_content_list
          = store8
        ∧ (loadMoreN store8 1 (loadFirstPage store8)).has_more_content
            = false) := by
  refine ⟨fun store limit cur => rfl, fun store fail cur => ?_, ?_, ?_, ?_, ?_⟩
  · cases fail <;> rfl
  · exact ⟨by decide, by decide⟩
  · decide
  · decide
  · decide

/-- C6: when the store call of a save, edit-save or remove raises
(transport failure), the operation reports the error to the user and
leaves the cache key exactly as it was — no invalidation on the failure
path (for `update` it also returns `False`). -/
theorem C6_failure_no_invalidate (e : String) (cache : Option MyContentState) :
    ((save_content_to_firestore (.failure e) cache).cache = cache
      ∧ (save_content_to_firestore (.failure e) cache).toast.toastType = .error
      ∧ (save_content_to_firestore (.failure e) cache).toast.message
          = "Falha ao salvar conteúdo: " ++ e)
    ∧ ((update_content_in_firestore (.unavailable e) cache).cache = cache
      ∧ (update_content_in_firestore (.unavailable e) cache).toast.toastType
          = .error
      ∧ (update_content_in_firestore (.unavailable e) cache).ok = false)
    ∧ ((delete_content_from_firestore (.failure e) cache).cache = cache
      ∧ (delete_content_from_firestore (.failure e) cache).toast.toastType
          = .error) :=
  ⟨⟨rfl, rfl, rfl⟩, ⟨rfl, rfl, rfl⟩, ⟨rfl, rfl⟩⟩

/-- C7 counterexample: the claim says a `NotFound` from an edit-save is
reported as "item no longer exists", as an error kind distinct from a
transport failure.  In the code both exceptions reach the same single
`except Exception` clause (lines 227-230): at this concrete input the
`NotFound` report is byte-for-byte identical to the `StoreUnavailable`
report — same toast, same untouched cache, same `False` return — and its
message is the generic "Falha ao atualizar conteúdo: ..." text, so the
claimed distinct reporting is false. -/
theorem C7_counterexample :
    (update_content_in_firestore (.notFound "404 Document to update missing") none
      = update_content_in_firestore (.unavailable "404 Document to update missing") none)
    ∧ (update_content_in_firestore (.notFound "404 Document to update missing") none).toast.message
        = "Falha ao atualizar conteúdo: 404 Document to update missing" := by
  exact ⟨rfl, rfl⟩

/-- C7 amended: an edit-save hitting a `NotFound` is handled by the same
generic handler as a transport failure: the user sees
`"Falha ao atualizar conteúdo: {e}"`, the function returns `False` and
the cache is untouched; the error kind is not distinguished from
`StoreUnavailable` by the code (only the embedded exception text can
differ). -/
theorem C7_amended (e : String) (cache : Option MyContentState) :
    update_content_in_firestore (.notFound e) cache
      = ⟨⟨"Falha ao atualizar conteúdo: " ++ e, .error⟩, cache, false⟩
    ∧ update_content_in_firestore (.notFound e) cache
      = update_content_in_firestore (.unavailable e) cache :=
  ⟨rfl, rfl⟩

/-- C10: a store failure during a page fetch makes `fetch_content` return
`([], None, False)`; a failed first-page load therefore caches an empty
list with load-more disabled, shows the "no saved content" message, and
is indistinguishable from reading a genuinely empty collection. -/
theorem C10_fetch_failure :
    (∀ (store : List ContentItem) (limit : Nat) (cur : Option ContentItem),
      fetch_content store true limit cur = ([], none, false))
    ∧ (∀ store : List ContentItem,
        render_my_content_read store true none = (⟨[], none, false, false⟩, 1)
        ∧ shows_empty_message (render_my_content_read store true none).1 = true
        ∧ shows_load_more (render_my_content_read store true none).1 = false
        ∧ render_my_content_read store true none
            = render_my_content_read [] false none) :=
  ⟨fun _ _ _ => rfl, fun _ => ⟨rfl, rfl, rfl, rfl⟩⟩

/-- C4: an empty or whitespace-only prompt leaves `is_loading` untouched
(Idle stays Idle), stores the validation message, issues no generation
API call in the submitting run, and the following run displays the
message and — the lifecycle being Idle — still issues no API call. -/
theorem C4_empty_prompt (sample : Option String) (api api2 : ApiResult)
    (s : ToolState) (prompt : String)
    (hp : py_strip prompt = "") (hidle : s.is_loading = false) :
    (run_tool_page sample s (some prompt) api).1.is_loading = false
    ∧ (run_tool_page sample s (some prompt) api).1.error_message
        = "Por favor, insira um prompt."
    ∧ (run_tool_page sample s (some prompt) api).2.2 = 0
    ∧ (run_tool_page sample
        (run_tool_page sample s (some prompt) api).1 none api2).2.1
        = some "Por favor, insira um prompt."
    ∧ (run_tool_page sample
        (run_tool_page sample s (some prompt) api).1 none api2).2.2 = 0 := by
  have hmsg : ("Por favor, insira um prompt." = "") = False := by
    simp
  simp [run_tool_page, hp, hidle, hmsg]

theorem C4_empty_prompt_witness :
    (py_strip "   " = "" ∧ (⟨"", "", false⟩ : ToolState).is_loading = false)
    ∧ ((run_tool_page none ⟨"", "", false⟩ (some "   ")
          (.transportError "x")).1.is_loading = false
      ∧ (run_tool_page none ⟨"", "", false⟩ (some "   ")
          (.transportError "x")).1.error_message
          = "Por favor, insira um prompt."
      ∧ (run_tool_page none ⟨"", "", false⟩ (some "   ")
          (.transportError "x")).2.2 = 0
      ∧ (run_tool_page none
          (run_tool_page none ⟨"", "", false⟩ (some "   ")
            (.transportError "x")).1 none (.transportError "x")).2.1
          = some "Por favor, insira um prompt."
      ∧ (run_tool_page none
          (run_tool_page none ⟨"", "", false⟩ (some "   ")
            (.transportError "x")).1 none (.transportError "x")).2.2 = 0) :=
  ⟨⟨by decide, rfl⟩,
   C4_empty_prompt none (.transportError "x") (.transportError "x")
     ⟨"", "", false⟩ "   " (by decide) rfl⟩

/-- C9: a submit processed while the lifecycle is already Pending leaves
the status observably unchanged (`is_loading` stays `true`) and the run
issues no generation API call (both submit branches end in `st.rerun()`
before the generation block); moreover every single run issues at most
one API call, so at most one request is in flight per tool session. -/
theorem C9_resubmit_pending (sample : Option String) (api : ApiResult)
    (s : ToolState) (prompt : String)
    (hp : ¬py_strip prompt = "") (hpend : s.is_loading = true) :
    (run_tool_page sample s (some prompt) api).1.is_loading = s.is_loading
    ∧ (run_tool_page sample s (some prompt) api).2.2 = 0
    ∧ (∀ (sample2 : Option String) (s2 : ToolState) (ev : Option String)
        (api2 : ApiResult), (run_tool_page sample2 s2 ev api2).2.2 ≤ 1) := by
  refine ⟨?_, ?_, ?_⟩
  · simp [run_tool_page, hp, hpend]
  · simp [run_tool_page, hp]
  · intro sample2 s2 ev api2
    rcases ev with _ | p <;> simp only [run_tool_page]
    · split <;> simp
    · split <;> simp

theorem C9_resubmit_pending_witness :
    (¬py_strip "ola" = "" ∧ (⟨"", "", true⟩ : ToolState).is_loading = true)
    ∧ ((run_tool_page none ⟨"", "", true⟩ (some "ola")
          (.transportError "x")).1.is_loading
        = (⟨"", "", true⟩ : ToolState).is_loading
      ∧ (run_tool_page none ⟨"", "", true⟩ (some "ola")
          (.transportError "x")).2.2 = 0
      ∧ (∀ (sample2 : Option String) (s2 : ToolState) (ev : Option String)
          (api2 : ApiResult), (run_tool_page sample2 s2 ev api2).2.2 ≤ 1)) :=
  ⟨⟨by decide, rfl⟩,
   C9_resubmit_pending none (.transportError "x") ⟨"", "", true⟩ "ola"
     (by decide) rfl⟩

/-- C8: a transport/network fault (`requests.exceptions.RequestException`)
during the generation call resolves the lifecycle to Failed with the
transport-specific error message — which is never empty, while every
response that reaches the empty-result diagnostic leaves `error_message`
empty, so the two error kinds are distinct — and the displayed result
falls back to the tool's configured `sampleOutput`; every tool in
`tool_configs` has one configured. -/
theorem C8_transport_fallback (v e : String) (s : ToolState)
    (hpend : s.is_loading = true) :
    (run_tool_page (some v) s none (.transportError e)).1.generated_result = v
    ∧ (run_tool_page (some v) s none (.transportError e)).1.error_message
        = "Erro de rede/API: " ++ e
    ∧ ¬(run_tool_page (some v) s none (.transportError e)).1.error_message = ""
    ∧ (run_tool_page (some v) s none (.transportError e)).1.is_loading = false
    ∧ (∀ r : GenResponse, reaches_empty_diagnostic r = true →
        (run_tool_page (some v) s none (.response r)).1.error_message = "")
    ∧ (∀ (k : String) (t : ToolConfig), tool_configs k = some t →
        ¬t.sampleOutput = none) := by
  refine ⟨?_, ?_, ?_, ?_, ?_, ?_⟩
  · simp [run_tool_page, hpend, handle_api]
  · simp [run_tool_page, hpend, handle_api]
  · simp only [run_tool_page, hpend, if_true, handle_api]
    intro h
    simp only [Option.getD_some] at h
    have hlen := congrArg String.length h
    rw [String.length_append] at hlen
    rw [show ("Erro de rede/API: ").length = 18 from rfl] at hlen
    rw [show ("" : String).length = 0 from rfl] at hlen
    omega
  · simp [run_tool_page, hpend, handle_api]
  · intro r hr
    rcases r with ⟨_ | ⟨_ | ⟨c, cs⟩⟩⟩
    · simp [run_tool_page, hpend, handle_api]
    · simp [reaches_empty_diagnostic] at hr
    · rcases hparts : c.parts with _ | ⟨_ | ⟨p, ps⟩⟩
      · simp [run_tool_page, hpend, handle_api, hparts]
      · simp [run_tool_page, hpend, handle_api, hparts]
      · simp [reaches_empty_diagnostic, hparts] at hr
  · intro k t ht
    unfold tool_configs at ht
    split at ht
    · injection ht with h2; subst h2; simp
    · split at ht
      · injection ht with h2; subst h2; simp
      · split at ht
        · injection ht with h2; subst h2; simp
        · split at ht
          · injection ht with h2; subst h2; simp
          · exact Option.noConfusion ht

theorem C8_transport_fallback_witness :
    ((⟨"x", "y", true⟩ : ToolState).is_loading = true)
    ∧ ((run_tool_page (some "Artigo gerado sobre o tema X...")
          ⟨"x", "y", true⟩ none (.transportError "timeout")).1.generated_result
        = "Artigo gerado sobre o tema X..."
      ∧ (run_tool_page (some "Artigo gerado sobre o tema X...")
          ⟨"x", "y", true⟩ none (.transportError "timeout")).1.error_message
          = "Erro de rede/API: " ++ "timeout"
      ∧ ¬(run_tool_page (some "Artigo gerado sobre o tema X...")
          ⟨"x", "y", true⟩ none (.transportError "timeout")).1.error_message = ""
      ∧ (run_tool_page (some "Artigo gerado sobre o tema X...")
          ⟨"x", "y", true⟩ none (.transportError "timeout")).1.is_loading = false
      ∧ (∀ r : GenResponse, reaches_empty_diagnostic r = true →
          (run_tool_page (some "Artigo gerado sobre o tema X...")
            ⟨"x", "y", true⟩ none (.response r)).1.error_message = "")
      ∧ (∀ (k : String) (t : ToolConfig), tool_configs k = some t →
          ¬t.sampleOutput = none)) :=
  ⟨rfl, C8_transport_fallback "Artigo gerado sobre o tema X..." "timeout"
    ⟨"x", "y", true⟩ rfl⟩

/-- C3: evaluating the code at the claim's own scenario.  With
`candidates = []` (key present, list empty) the run does NOT produce the
"Resposta da API vazia ou malformada ... N/A" diagnostic: line 302's
`result.get("candidates", [{}])[0]` indexes the present empty list,
raising `IndexError`, which the generic `except Exception` turns into
`"Erro ao gerar conteúdo: list index out of range"` with the sample-output
fallback — the same presentation as a generic failure.  Only a response
with the `candidates` key missing reaches the claimed "N/A" diagnostic. -/
theorem C3_empty_candidates :
    (run_tool_page (some "Artigo gerado sobre o tema X...")
        ⟨"", "", true⟩ none (.response ⟨some []⟩)).1
      = ⟨"Erro ao gerar conteúdo: list index out of range",
         "Artigo gerado sobre o tema X...", false⟩
    ∧ (run_tool_page (some "Artigo gerado sobre o tema X...")
        ⟨"", "", true⟩ none (.response ⟨none⟩)).1
      = ⟨"", "Não foi possível gerar o conteúdo. Resposta da API vazia ou malformada. Motivo: N/A. Classificações: []",
         false⟩ :=
  ⟨rfl, rfl⟩

end Kelly
